import Mathlib

/-!
Shallow embedding of the resource-tracking and metric-derivation core of
src/lib/webpage-impact/index.ts (the WebpageImpact plugin).

JavaScript numbers are modelled as rationals; all actually occurring values
(transfer sizes, body lengths) are integers well inside the double-precision
exact range, so rational arithmetic reproduces the additive computations
exactly.  The only operation that can leave the finite range is the single
division in computeMetrics; it is modelled by jsDiv, which returns none when
the denominator is 0 (in JavaScript that division yields NaN or an infinity,
never a finite number).
-/

set_option autoImplicit false

namespace WebpageImpact

/-- Puppeteer's ResourceType enumeration (the closed set of values
of response.request().resourceType()). -/
inductive ResourceType where
  | document
  | stylesheet
  | image
  | media
  | font
  | script
  | texttrack
  | xhr
  | fetch
  | prefetch
  | eventsource
  | websocket
  | manifest
  | signedexchange
  | ping
  | cspviolationreport
  | preflight
  | other
  deriving DecidableEq, Repr

/-- The ResourceBase record type of index.ts (lines 32-38). -/
structure ResourceBase where
  url : String
  resourceSize : ℚ
  type : ResourceType
  fromCache : Bool
  fromServiceWorker : Bool
  deriving DecidableEq, Repr

/-- Resource = ResourceBase and a transferSize field (line 40). -/
structure Resource extends ResourceBase where
  transferSize : ℚ
  deriving DecidableEq, Repr

/-- JavaScript division on finite numbers: a / b is a finite number exactly
when b is nonzero (with finite integral operands as here); b = 0 yields NaN
or an infinity, modelled as none. -/
def jsDiv (a b : ℚ) : Option ℚ :=
  if b = 0 then none else some (a / b)

/-- One step of the reduce at lines 345-355: acc[type] += transferSize when
the key is present, acc[type] = transferSize otherwise.  A plain JS object
keeps keys in insertion order and appends new keys at the end, so the
accumulator is an association list updated in place or extended at the end.
(ResourceType values never collide with Object.prototype keys, so the JS
`in` test is exactly key membership.) -/
def updateWeight : List (ResourceType × ℚ) → ResourceType → ℚ → List (ResourceType × ℚ)
  | [], t, w => [(t, w)]
  | (t', w') :: rest, t, w =>
      if t' = t then (t, w' + w) :: rest else (t', w') :: updateWeight rest t w

/-- The resourceTypeWeights reduce of computeMetrics (lines 345-355). -/
def resourceTypeWeights (initialResources : List Resource) : List (ResourceType × ℚ) :=
  initialResources.foldl (fun acc resource => updateWeight acc resource.type resource.transferSize) []

/-- Object.values(resourceTypeWeights).reduce((acc, s) => acc + s, 0)
(lines 356-359). -/
def sumValues (weights : List (ResourceType × ℚ)) : ℚ :=
  weights.foldl (fun acc resourceTypeSize => acc + resourceTypeSize.2) 0

/-- resources.reduce((acc, r) => acc + r.transferSize, 0)
(the reloadPageWeight reduce, lines 371-374). -/
def sumTransfer (resources : List Resource) : ℚ :=
  resources.foldl (fun acc resource => acc + resource.transferSize) 0

/-- resources.reduce((acc, r) => acc + (r.fromCache ? r.transferSize : 0), 0)
(the initialCacheWeight and browserCache reduces, lines 363-367 and 377-381). -/
def cacheWeight (resources : List Resource) : ℚ :=
  resources.foldl
    (fun acc resource => acc + (if resource.fromCache then resource.transferSize else 0)) 0

/-- Result record of computeMetrics.  dataReloadRatio is
number | undefined in the source: the outer Option is undefined
(not computed), the inner Option is none for a non-finite number. -/
structure MetricsResult where
  pageWeight : ℚ
  resourceTypeWeights : List (ResourceType × ℚ)
  dataReloadRatio : Option (Option ℚ)
  deriving DecidableEq, Repr

/-- computeMetrics (lines 340-393).  The initialCacheWeight reduce at
lines 363-367 only drives a console warning and does not influence the
returned record, so it is not repeated here. -/
def computeMetrics (initialResources reloadResources : List Resource)
    ( computeReloadRatio : Bool) : MetricsResult :=
  let weights := resourceTypeWeights initialResources
  let initialPageWeight := sumValues weights
  let ratioValue :=
    if computeReloadRatio then
      let reloadPageWeight := sumTransfer reloadResources
      let assumeFromCache := initialPageWeight - reloadPageWeight
      let browserCache := cacheWeight reloadResources
      let assumedCacheWeight := assumeFromCache + browserCache
      some (jsDiv (initialPageWeight - assumedCacheWeight) initialPageWeight)
    else none
  ⟨initialPageWeight, weights, ratioValue⟩

/-- NON_NETWORK_SCHEMES (lines 46-53). -/
def NON_NETWORK_SCHEMES : List String :=
  ["blob", "data", "intent", "file", "filesystem", "chrome-extension"]

/-- The observable pieces of a puppeteer HTTPResponse that the response
handler reads: response.url(), response.request().url(),
response.status(), response.request().method(), the cache-origin flags,
response.request().resourceType(), and the body length from
response.buffer().  buffer() can reject (the response may already be
gone), which the source catches and turns into skipping the resource;
a rejected buffer() is modelled as bufferLength = none. -/
structure HTTPResponse where
  url : String
  requestUrl : String
  status : ℕ
  method : String
  fromCache : Bool
  fromServiceWorker : Bool
  resourceType : ResourceType
  bufferLength : Option ℕ
  deriving DecidableEq, Repr

/-- JS String.prototype.startsWith, on the character sequences of the two
strings: the first argument starts with the second. -/
def startsWithChars : List Char → List Char → Bool
  | _, [] => true
  | [], _ :: _ => false
  | c :: s, d :: p => (c == d) && startsWithChars s p

/-- isFromNonNetworkRequest (lines 289-292): the request URL starts with
one of the non-network schemes followed by a colon. -/
def isFromNonNetworkRequest (response : HTTPResponse) : Bool :=
  NON_NETWORK_SCHEMES.any fun scheme => startsWithChars response.requestUrl.data (scheme ++ ":").data

/-- hasNoResponseBody (lines 294-300), exactly as written in the source:
status() === 204 && status() === 304 && method !== OPTIONS. -/
def hasNoResponseBody (response : HTTPResponse) : Bool :=
  (response.status == 204 && response.status == 304) && response.method != "OPTIONS"

/-- One invocation of the response handler (lines 222-239): skip filtered
or body-less responses, read the body (skipping the resource when the read
fails), and push a ResourceBase onto the accumulating list. -/
def responseHandler (pageResources : List ResourceBase) (response : HTTPResponse) :
    List ResourceBase :=
  if isFromNonNetworkRequest response || hasNoResponseBody response then
    pageResources
  else
    match response.bufferLength with
    | none => pageResources
    | some len =>
        pageResources ++
          [{ url := response.url
             resourceSize := (len : ℚ)
             type := response.resourceType
             fromCache := response.fromCache
             fromServiceWorker := response.fromServiceWorker }]

/-- The resource list a page load accumulates from a sequence of response
events (the pageResources array of loadPageResources, lines 220-239). -/
def processedResources (responses : List HTTPResponse) : List ResourceBase :=
  responses.foldl responseHandler []

/-- JS Map.set: replace the value of an existing key in place, otherwise
append the new entry (JS Maps preserve insertion order). -/
def mapSet {α : Type} : List (String × α) → String → α → List (String × α)
  | [], k, v => [(k, v)]
  | (k', v') :: rest, k, v =>
      if k' = k then (k, v) :: rest else (k', v') :: mapSet rest k v

/-- State of the Chrome devtools protocol correlator of loadPageResources
(lines 246-259): cdpIntermediateStore maps requestId to url,
cdpResponses maps url to encodedDataLength. -/
structure CdpState where
  cdpIntermediateStore : List (String × String)
  cdpResponses : List (String × ℚ)
  deriving DecidableEq, Repr

/-- The two CDP events the correlator listens to. -/
inductive CdpEvent where
  | responseReceived (requestId : String) (url : String)
  | loadingFinished (requestId : String) (encodedDataLength : ℚ)
  deriving DecidableEq, Repr

/-- The two event handlers of lines 250-259.  On responseReceived the
requestId-to-url entry is stored; on loadingFinished the pending entry is
looked up and, only when present (the `response &&` guard), the url's
encodedDataLength is recorded.  A miss does nothing. -/
def handleCdpEvent (s : CdpState) : CdpEvent → CdpState
  | CdpEvent.responseReceived requestId url =>
      { s with cdpIntermediateStore := mapSet s.cdpIntermediateStore requestId url }
  | CdpEvent.loadingFinished requestId encodedDataLength =>
      match s.cdpIntermediateStore.lookup requestId with
      | some url => { s with cdpResponses := mapSet s.cdpResponses url encodedDataLength }
      | none => s

/-- mergeCdpResponsesIntoResources (lines 302-321): for each ResourceBase,
look its url up in cdpResponses; spread the base record and add
transferSize, the encodedDataLength when found and 0 otherwise (the miss
case additionally prints a warning and nothing else). -/
def mergeCdpResponsesIntoResources (pageResources : List ResourceBase)
    (cdpResponses : List (String × ℚ)) : List Resource :=
  pageResources.map fun resource =>
    match cdpResponses.lookup resource.url with
    | some encodedDataLength => ⟨resource, encodedDataLength⟩
    | none => ⟨resource, 0⟩

/-- JS truthiness of a number | undefined value: undefined, 0 and NaN are
falsy (a supplied config value is a finite number here). -/
def jsTruthy : Option ℚ → Bool
  | none => false
  | some q => q != 0

/-- Line 131 of measurePageImpactMetrics:
computeReloadRatio = !config?.options?.dataReloadRatio. -/
def computeReloadRatioOf (configOptionsValue : Option ℚ) : Bool :=
  ! jsTruthy configOptionsValue

/-- The metric part of measurePageImpactMetrics (lines 127-213): the two
captured resource lists are fed to computeMetrics with the flag
of line 131. -/
def measureMetrics (configOptionsValue : Option ℚ)
    (initialResources reloadedResources : List Resource) : MetricsResult :=
  computeMetrics initialResources reloadedResources (computeReloadRatioOf configOptionsValue)

/-- JS truthiness of the dataReloadRatio variable in execute (line 114):
it is undefined when not computed, and a number (possibly non-finite)
when computed. -/
def jsTruthyComputed : Option (Option ℚ) → Bool
  | some (some q) => q != 0
  | some none => false
  | none => false

set_option linter.unusedVariables false in
/-- The options field of the object execute returns (lines 114-121):
when input.options is set (any object is truthy) or the computed ratio
variable is truthy, the output carries an options object that spreads
input.options and then sets its own dataReloadRatio key to the computed
variable - overriding whatever ratio value input.options held; otherwise
no options field is emitted.  The result is the output options field
(outer Option) holding its dataReloadRatio entry (the inner
Option (Option Rat), a number | undefined value). -/
def executeOptionsField (inputOptionsPresent : Bool) (inputOptionsValue : Option ℚ)
    (computed : Option (Option ℚ)) : Option (Option (Option ℚ)) :=
  if inputOptionsPresent || jsTruthyComputed computed then some computed else none
-- inputOptionsValue is deliberately dead: the spread at line 117-118 sets the
-- dataReloadRatio key after spreading input.options, so the input value can
-- never reach the emitted options object.

/- Helper lemmas about the three accumulating reduces. -/

lemma foldl_add_shift {α : Type} (f : α → ℚ) (l : List α) (a : ℚ) :
    l.foldl (fun acc x => acc + f x) a = a + l.foldl (fun acc x => acc + f x) 0 := by
  induction l generalizing a with
  | nil => simp
  | cons x xs ih =>
      simp only [List.foldl_cons, zero_add]
      rw [ih (a + f x), ih (f x), add_assoc]

lemma sumValues_nil : sumValues [] = 0 := rfl

lemma sumValues_cons (p : ResourceType × ℚ) (l : List (ResourceType × ℚ)) :
    sumValues (p :: l) = p.2 + sumValues l := by
  show List.foldl _ (0 + p.2) l = _
  rw [zero_add]
  exact foldl_add_shift (fun q => q.2) l p.2

lemma sumTransfer_cons (r : Resource) (l : List Resource) :
    sumTransfer (r :: l) = r.transferSize + sumTransfer l := by
  show List.foldl _ (0 + r.transferSize) l = _
  rw [zero_add]
  exact foldl_add_shift (fun q => q.transferSize) l r.transferSize

lemma cacheWeight_cons (r : Resource) (l : List Resource) :
    cacheWeight (r :: l) =
      (if r.fromCache then r.transferSize else 0) + cacheWeight l := by
  show List.foldl _ (0 + _) l = _
  rw [zero_add]
  exact foldl_add_shift (fun q => if q.fromCache then q.transferSize else 0) l _

lemma sumValues_updateWeight (l : List (ResourceType × ℚ)) (t : ResourceType) (w : ℚ) :
    sumValues (updateWeight l t w) = sumValues l + w := by
  induction l with
  | nil => simp [updateWeight, sumValues]
  | cons p rest ih =>
      obtain ⟨t', w'⟩ := p
      by_cases h : t' = t
      · simp only [updateWeight, if_pos h, sumValues_cons]
        ring
      · simp only [updateWeight, if_neg h, sumValues_cons, ih]
        ring

lemma sumValues_weightFold (resources : List Resource) (acc : List (ResourceType × ℚ)) :
    sumValues
        (resources.foldl (fun a resource => updateWeight a resource.type resource.transferSize) acc)
      = sumValues acc + sumTransfer resources := by
  induction resources generalizing acc with
  | nil => simp [sumTransfer]
  | cons r rs ih =>
      simp only [List.foldl_cons]
      rw [ih, sumValues_updateWeight, sumTransfer_cons]
      ring

lemma sumValues_resourceTypeWeights (resources : List Resource) :
    sumValues (resourceTypeWeights resources) = sumTransfer resources := by
  have h := sumValues_weightFold resources []
  rwa [sumValues_nil, zero_add] at h

lemma sumTransfer_eq_zero (resources : List Resource)
    (h : ∀ r ∈ resources, r.transferSize = 0) : sumTransfer resources = 0 := by
  induction resources with
  | nil => rfl
  | cons r rs ih =>
      rw [sumTransfer_cons, h r (List.mem_cons_self r rs),
        ih fun x hx => h x (List.mem_cons_of_mem r hx), add_zero]

lemma cacheWeight_eq_zero (resources : List Resource)
    (h : ∀ r ∈ resources, r.fromCache = false) : cacheWeight resources = 0 := by
  induction resources with
  | nil => rfl
  | cons r rs ih =>
      rw [cacheWeight_cons, h r (List.mem_cons_self r rs),
        ih fun x hx => h x (List.mem_cons_of_mem r hx)]
      simp

/-- Every resource pushed by the response handler fold comes either from the
starting accumulator or from a response that passed the non-network filter. -/
lemma mem_responseFold (responses : List HTTPResponse) (acc : List ResourceBase)
    (res : ResourceBase) (h : res ∈ responses.foldl responseHandler acc) :
    res ∈ acc ∨
      ∃ response ∈ responses,
        isFromNonNetworkRequest response = false ∧ res.url = response.url := by
  induction responses generalizing acc with
  | nil => exact Or.inl h
  | cons r rs ih =>
      rw [List.foldl_cons] at h
      rcases ih (responseHandler acc r) h with hacc | hex
      · unfold responseHandler at hacc
        cases hfil : (isFromNonNetworkRequest r || hasNoResponseBody r) with
        | true => rw [if_pos hfil] at hacc; exact Or.inl hacc
        | false =>
            rw [if_neg (by simp [hfil])] at hacc
            cases hbuf : r.bufferLength with
            | none => rw [hbuf] at hacc; exact Or.inl hacc
            | some len =>
                rw [hbuf] at hacc
                rcases List.mem_append.mp hacc with h1 | h2
                · exact Or.inl h1
                · refine Or.inr ⟨r, List.mem_cons_self r rs, ?_, ?_⟩
                  · exact (Bool.or_eq_false_iff.mp hfil).1
                  · have hres : res =
                        ⟨r.url, (len : ℚ), r.resourceType, r.fromCache, r.fromServiceWorker⟩ := by
                      simpa using h2
                    rw [hres]
      · rcases hex with ⟨resp, hmem, hval⟩
        exact Or.inr ⟨resp, List.mem_cons_of_mem r hmem, hval⟩

/- Concrete inputs used by witnesses and counterexamples. -/

/-- The initial-load list of the example in the spec: an image of
transferSize 100 and a script of transferSize 50, none from cache. -/
def c1Initial : List Resource :=
  [⟨⟨"https://example.test/a.png", 0, ResourceType.image, false, false⟩, 100⟩,
   ⟨⟨"https://example.test/b.js", 0, ResourceType.script, false, false⟩, 50⟩]

/-- The reload list of the example in the spec: the image now from cache
with transferSize 0, the script fetched again with transferSize 50. -/
def c1Reload : List Resource :=
  [⟨⟨"https://example.test/a.png", 0, ResourceType.image, true, false⟩, 0⟩,
   ⟨⟨"https://example.test/b.js", 0, ResourceType.script, false, false⟩, 50⟩]

/- Claims. -/

/-- Claim C1 (confirmed): with computeReloadRatio true and a non-zero
pageWeight, computeMetrics returns
dataReloadRatio = (pageWeight - assumedCacheWeight) / pageWeight, where
assumedCacheWeight = (pageWeight - sum of transferSize over the reload
resources) + (sum of transferSize over the reload resources flagged
fromCache). -/
theorem computeMetrics_reload_formula (init rel : List Resource)
    (h : MetricsResult.pageWeight (computeMetrics init rel true) ≠ 0) :
    MetricsResult.dataReloadRatio (computeMetrics init rel true) =
      some (some ((MetricsResult.pageWeight (computeMetrics init rel true) -
          ((MetricsResult.pageWeight (computeMetrics init rel true) - sumTransfer rel) +
            cacheWeight rel)) /
        MetricsResult.pageWeight (computeMetrics init rel true))) := by
  have h' : sumValues (resourceTypeWeights init) ≠ 0 := h
  simp [computeMetrics, jsDiv, h']

/-- Witness for C1, on the concrete pair of resource lists from the claim:
the pageWeight is 150 (non-zero) and the ratio is (150 - 100) / 150 = 1/3. -/
theorem computeMetrics_reload_formula_witness :
    MetricsResult.pageWeight (computeMetrics c1Initial c1Reload true) = 150 ∧
    MetricsResult.dataReloadRatio (computeMetrics c1Initial c1Reload true) =
      some (some (1 / 3)) := by
  have hpw : MetricsResult.pageWeight (computeMetrics c1Initial c1Reload true) = 150 := by
    norm_num +decide [computeMetrics, c1Initial, c1Reload, resourceTypeWeights, sumValues,
      updateWeight]
  refine ⟨hpw, ?_⟩
  have h := computeMetrics_reload_formula c1Initial c1Reload (by rw [hpw]; norm_num)
  rw [h, hpw]
  norm_num +decide [c1Reload, sumTransfer, cacheWeight]

/-- Claim C2 (confirmed): the pageWeight computeMetrics returns equals the
sum of the values of the returned resourceTypeWeights map, and also equals
the sum of transferSize over all initial-load resources. -/
theorem pageWeight_eq_sum_of_weights (init rel : List Resource) (b : Bool) :
    MetricsResult.pageWeight (computeMetrics init rel b) =
        sumValues (MetricsResult.resourceTypeWeights (computeMetrics init rel b)) ∧
    MetricsResult.pageWeight (computeMetrics init rel b) = sumTransfer init := by
  exact ⟨rfl, sumValues_resourceTypeWeights init⟩

/-- Counterexample to claim C3: on the empty resource lists the pageWeight
is 0 and computeMetrics divides by it anyway; the computed dataReloadRatio
is the non-finite result of a zero division (NaN in JavaScript), not 1.0. -/
theorem zero_pageWeight_counterexample :
    MetricsResult.pageWeight (computeMetrics [] [] true) = 0 ∧
    MetricsResult.dataReloadRatio (computeMetrics [] [] true) = some none ∧
    MetricsResult.dataReloadRatio (computeMetrics [] [] true) ≠ some (some 1) := by
  refine ⟨rfl, rfl, ?_⟩
  simp [computeMetrics, jsDiv, resourceTypeWeights, sumValues, sumTransfer, cacheWeight]

/-- Claim C3 as amended: when computeReloadRatio is true and pageWeight is 0,
computeMetrics performs the division by zero anyway, so the returned
dataReloadRatio is a computed but non-finite number (NaN in JavaScript),
not the defined value 1.0. -/
theorem zero_pageWeight_nonfinite (init rel : List Resource)
    (h : MetricsResult.pageWeight (computeMetrics init rel true) = 0) :
    MetricsResult.dataReloadRatio (computeMetrics init rel true) = some none := by
  have h' : sumValues (resourceTypeWeights init) = 0 := h
  simp [computeMetrics, jsDiv, h']

/-- Witness for the amended C3 at the empty resource lists. -/
theorem zero_pageWeight_nonfinite_witness :
    MetricsResult.dataReloadRatio (computeMetrics [] [] true) = some none :=
  zero_pageWeight_nonfinite [] [] rfl

/-- A one-image initial load of transferSize 150. -/
def c4Initial : List Resource :=
  [⟨⟨"https://example.test/a.png", 0, ResourceType.image, false, false⟩, 150⟩]

/-- A reload of the same image with transferSize 0, not flagged fromCache. -/
def c4Reload : List Resource :=
  [⟨⟨"https://example.test/a.png", 0, ResourceType.image, false, false⟩, 0⟩]

/-- A one-image initial load of transferSize 100. -/
def c4InitialSmall : List Resource :=
  [⟨⟨"https://example.test/a.png", 0, ResourceType.image, false, false⟩, 100⟩]

/-- A reload that transfers 200 bytes for the image, twice the initial load. -/
def c4ReloadLarge : List Resource :=
  [⟨⟨"https://example.test/a.png", 0, ResourceType.image, false, false⟩, 200⟩]

/-- Counterexample to claim C4: with pageWeight 150 and a reload whose only
resource has transferSize 0 and is not flagged fromCache, the ratio is 0,
not 1.0 (a reload that transfers nothing is inferred as fully cached); and
with pageWeight 100 but a 200-byte reload the ratio is 2, outside
the claimed interval. -/
theorem reload_ratio_counterexample :
    MetricsResult.pageWeight (computeMetrics c4Initial c4Reload true) = 150 ∧
    MetricsResult.dataReloadRatio (computeMetrics c4Initial c4Reload true) = some (some 0) ∧
    MetricsResult.dataReloadRatio (computeMetrics c4Initial c4Reload true) ≠ some (some 1) ∧
    MetricsResult.pageWeight (computeMetrics c4InitialSmall c4ReloadLarge true) = 100 ∧
    MetricsResult.dataReloadRatio (computeMetrics c4InitialSmall c4ReloadLarge true) =
      some (some 2) ∧
    ¬ ((2 : ℚ) ≤ 1) := by
  refine ⟨?_, ?_, ?_, ?_, ?_, by norm_num⟩
  all_goals
    norm_num +decide [computeMetrics, c4Initial, c4Reload, c4InitialSmall, c4ReloadLarge,
      resourceTypeWeights, sumValues, updateWeight, sumTransfer, cacheWeight, jsDiv]

/-- Claim C4 as amended: with computeReloadRatio true and pageWeight > 0,
if every reload resource has transferSize 0 and none is flagged fromCache
then the returned dataReloadRatio equals 0.0 (not 1.0); and the returned
ratio is at most 1 exactly when the reload transfer total is at most
pageWeight plus the reload cache weight (a condition an oversized reload
can violate). -/
theorem reload_ratio_bounds (init rel : List Resource)
    (h : 0 < MetricsResult.pageWeight (computeMetrics init rel true)) :
    ((∀ r ∈ rel, r.transferSize = 0 ∧ r.fromCache = false) →
        MetricsResult.dataReloadRatio (computeMetrics init rel true) = some (some 0)) ∧
    (∀ q : ℚ, MetricsResult.dataReloadRatio (computeMetrics init rel true) = some (some q) →
        (q ≤ 1 ↔ sumTransfer rel ≤
          MetricsResult.pageWeight (computeMetrics init rel true) + cacheWeight rel)) := by
  have hpw : (0 : ℚ) < sumValues (resourceTypeWeights init) := h
  have hne : sumValues (resourceTypeWeights init) ≠ 0 := ne_of_gt hpw
  have hpweq : MetricsResult.pageWeight (computeMetrics init rel true) =
      sumValues (resourceTypeWeights init) := rfl
  constructor
  · intro hall
    have hs : sumTransfer rel = 0 := sumTransfer_eq_zero rel fun r hr => (hall r hr).1
    have hc : cacheWeight rel = 0 := cacheWeight_eq_zero rel fun r hr => (hall r hr).2
    simp [computeMetrics, jsDiv, hne, hs, hc]
  · intro q hq
    simp only [computeMetrics, jsDiv, if_neg hne, if_true] at hq
    have hq' : (sumValues (resourceTypeWeights init) -
        (sumValues (resourceTypeWeights init) - sumTransfer rel + cacheWeight rel)) /
          sumValues (resourceTypeWeights init) = q := by
      simpa using hq
    have hqval : q = (sumTransfer rel - cacheWeight rel) / sumValues (resourceTypeWeights init) := by
      rw [← hq']
      ring_nf
    rw [hqval, hpweq, div_le_one hpw]
    exact sub_le_iff_le_add

/-- Witness for the amended C4: on the 150-byte initial load and the
all-zero, cache-unflagged reload, the ratio is 0. -/
theorem reload_ratio_bounds_witness :
    MetricsResult.dataReloadRatio (computeMetrics c4Initial c4Reload true) = some (some 0) := by
  have h := reload_ratio_bounds c4Initial c4Reload
    (by norm_num +decide [computeMetrics, c4Initial, resourceTypeWeights, sumValues, updateWeight])
  exact h.1 (by intro r hr; fin_cases hr; exact ⟨rfl, rfl⟩)

/-- Counterexample to claim C5: an externally supplied dataReloadRatio of 0
is falsy, so line 131 sets computeReloadRatio to true, the ratio is
recomputed (here to 1/3), and the execute output's options carry the
recomputed value instead of the supplied 0. -/
theorem supplied_zero_recomputed :
    computeReloadRatioOf (some 0) = true ∧
    MetricsResult.dataReloadRatio (measureMetrics (some 0) c1Initial c1Reload) =
      some (some (1 / 3)) ∧
    executeOptionsField true (some 0)
        (MetricsResult.dataReloadRatio (measureMetrics (some 0) c1Initial c1Reload)) =
      some (some (some (1 / 3))) := by
  have hr : MetricsResult.dataReloadRatio (measureMetrics (some 0) c1Initial c1Reload) =
      some (some (1 / 3)) := by
    norm_num +decide [measureMetrics, computeReloadRatioOf, jsTruthy, computeMetrics,
      c1Initial, c1Reload, resourceTypeWeights, sumValues, updateWeight, sumTransfer,
      cacheWeight, jsDiv]
  refine ⟨rfl, hr, ?_⟩
  rw [hr]
  norm_num [executeOptionsField, jsTruthyComputed]

/-- Claim C5 as amended: for every non-zero externally supplied
dataReloadRatio in the config options, the ratio computation is skipped
(computeReloadRatio is false and computeMetrics returns
dataReloadRatio = undefined), and the execute output's options never carry
a recomputed value (their dataReloadRatio entry is the undefined computed
variable); a supplied value of exactly 0 is falsy and is recomputed. -/
theorem supplied_nonzero_skips (r : ℚ) (h : r ≠ 0) (init rel : List Resource)
    (inputOptionsPresent : Bool) (inputOptionsValue : Option ℚ) :
    computeReloadRatioOf (some r) = false ∧
    MetricsResult.dataReloadRatio (measureMetrics (some r) init rel) = none ∧
    executeOptionsField inputOptionsPresent inputOptionsValue
        (MetricsResult.dataReloadRatio (measureMetrics (some r) init rel)) =
      (if inputOptionsPresent then some none else none) := by
  have hf : computeReloadRatioOf (some r) = false := by
    simp [computeReloadRatioOf, jsTruthy, h]
  have hm : MetricsResult.dataReloadRatio (measureMetrics (some r) init rel) = none := by
    simp [measureMetrics, hf, computeMetrics]
  refine ⟨hf, hm, ?_⟩
  rw [hm]
  cases inputOptionsPresent <;> simp [executeOptionsField, jsTruthyComputed]

/-- Witness for the amended C5 at the supplied value 1/2 with input options
present: the computation is skipped and the output options' ratio entry is
undefined, not a recomputed number. -/
theorem supplied_nonzero_skips_witness :
    computeReloadRatioOf (some (1 / 2)) = false ∧
    MetricsResult.dataReloadRatio (measureMetrics (some (1 / 2)) c1Initial c1Reload) = none ∧
    executeOptionsField true (some (1 / 2))
        (MetricsResult.dataReloadRatio (measureMetrics (some (1 / 2)) c1Initial c1Reload)) =
      some none := by
  have h := supplied_nonzero_skips (1 / 2) (by norm_num) c1Initial c1Reload true (some (1 / 2))
  simpa using h

/-- A 204 No Content response to a GET request, carrying an empty body. -/
def c6Response : HTTPResponse :=
  ⟨"https://example.test/nobody", "https://example.test/nobody", 204, "GET", false, false,
    ResourceType.xhr, some 0⟩

/-- Claim C6 (code bug): hasNoResponseBody at lines 294-300 conjoins
status() === 204 with status() === 304, two mutually exclusive checks, so
it returns false for every response.  A status-204 GET response is
therefore not excluded: the handler appends a ResourceBase for it,
contrary to the exclusion the claim describes (and to the behavior the
function's own name announces). -/
theorem hasNoResponseBody_unreachable :
    (∀ response : HTTPResponse, hasNoResponseBody response = false) ∧
    hasNoResponseBody c6Response = false ∧
    processedResources [c6Response] =
      [⟨"https://example.test/nobody", 0, ResourceType.xhr, false, false⟩] := by
  refine ⟨?_, rfl, ?_⟩
  · intro response
    simp only [hasNoResponseBody, Bool.and_eq_false_iff]
    by_cases h : response.status = 204
    · exact Or.inl (Or.inr (by simp [h]))
    · exact Or.inl (Or.inl (by simp [h]))
  · norm_num +decide [processedResources, responseHandler, c6Response]

/-- An ordinary network document response. -/
def c7Response : HTTPResponse :=
  ⟨"https://example.test/page", "https://example.test/page", 200, "GET", false, false,
    ResourceType.document, some 12⟩

/-- Claim C7 (confirmed): every resource in the list the response handler
produces originates from a response whose request URL passed the
non-network filter, so no resource with a blob, data, intent, file,
filesystem or chrome-extension request URL scheme ever appears, regardless
of the response's status. -/
theorem processed_no_nonNetwork (responses : List HTTPResponse) (res : ResourceBase)
    (h : res ∈ processedResources responses) :
    ∃ response ∈ responses,
      isFromNonNetworkRequest response = false ∧ res.url = response.url := by
  rcases mem_responseFold responses [] res h with habs | hex
  · simp at habs
  · exact hex

/-- Witness for C7 on a one-response stream. -/
theorem processed_no_nonNetwork_witness :
    ∃ response ∈ [c7Response],
      isFromNonNetworkRequest response = false ∧
        ResourceBase.url ⟨"https://example.test/page", 12, ResourceType.document, false, false⟩
          = response.url :=
  processed_no_nonNetwork [c7Response]
    ⟨"https://example.test/page", 12, ResourceType.document, false, false⟩
    (by norm_num +decide [processedResources, responseHandler, c7Response])

/-- Claim C8 (confirmed): a loadingFinished event whose requestId has no
entry in the pending requestId-to-url map changes nothing at all - the
handler is total (no error) and in particular the finished
url-to-encodedDataLength map is untouched, so no transfer size becomes
resolvable for any URL. -/
theorem loadingFinished_no_pending (s : CdpState) (requestId : String) (len : ℚ)
    (h : (CdpState.cdpIntermediateStore s).lookup requestId = none) :
    handleCdpEvent s (CdpEvent.loadingFinished requestId len) = s := by
  simp [handleCdpEvent, h]

/-- A correlator state tracking one pending requestId and no finished URL. -/
def c8State : CdpState := ⟨[("req1", "https://example.test/a")], []⟩

/-- Witness for C8: a loadingFinished for the untracked requestId req2
leaves the state untouched. -/
theorem loadingFinished_no_pending_witness :
    handleCdpEvent c8State (CdpEvent.loadingFinished "req2" 5) = c8State :=
  loadingFinished_no_pending c8State "req2" 5 (by decide)

/-- Two captured resources: one whose url has a finished transfer size of
42 and one missing from the finished map. -/
def mergeBases : List ResourceBase :=
  [⟨"https://example.test/a.png", 4, ResourceType.image, false, false⟩,
   ⟨"https://example.test/missing.js", 3, ResourceType.script, false, false⟩]

/-- A finished map resolving only the first of the two urls. -/
def mergeMap : List (String × ℚ) := [("https://example.test/a.png", 42)]

/-- Claim C9 (confirmed): the merge is total - it yields a Resource for
every input record - and position by position the transferSize is the
encodedDataLength found for the record's url, or 0 when the url is absent
(the absent case additionally prints a warning and never fails). -/
theorem merge_transferSize_of_lookup (pageResources : List ResourceBase)
    (cdpResponses : List (String × ℚ)) :
    (mergeCdpResponsesIntoResources pageResources cdpResponses).length = pageResources.length ∧
    ∀ (i : ℕ) (h1 : i < (mergeCdpResponsesIntoResources pageResources cdpResponses).length)
      (h2 : i < pageResources.length),
      Resource.transferSize
          ((mergeCdpResponsesIntoResources pageResources cdpResponses).get ⟨i, h1⟩)
        = (cdpResponses.lookup (ResourceBase.url (pageResources.get ⟨i, h2⟩))).getD 0 := by
  constructor
  · simp [mergeCdpResponsesIntoResources]
  · intro i h1 h2
    simp only [mergeCdpResponsesIntoResources, List.get_eq_getElem, List.getElem_map]
    cases hl : cdpResponses.lookup (ResourceBase.url pageResources[i]) with
    | none => simp [hl]
    | some v => simp [hl]

/-- Witness for C9: the resolved url gets transferSize 42, the missing one
transferSize 0, and the merge has one output per input. -/
theorem merge_transferSize_of_lookup_witness :
    (mergeCdpResponsesIntoResources mergeBases mergeMap).length = mergeBases.length ∧
    Resource.transferSize
        ((mergeCdpResponsesIntoResources mergeBases mergeMap).get ⟨0, by decide⟩) = 42 ∧
    Resource.transferSize
        ((mergeCdpResponsesIntoResources mergeBases mergeMap).get ⟨1, by decide⟩) = 0 := by
  have h := merge_transferSize_of_lookup mergeBases mergeMap
  refine ⟨h.1, ?_, ?_⟩
  · rw [h.2 0 (by decide) (by decide)]
    norm_num +decide [mergeBases, mergeMap]
  · rw [h.2 1 (by decide) (by decide)]
    norm_num +decide [mergeBases, mergeMap]

/-- Claim C10 (confirmed): the merge returns a list of exactly the same
length and order as the input, and each output Resource keeps the url,
resourceSize, type, fromCache and fromServiceWorker of its input record
unchanged - only transferSize is added. -/
theorem merge_preserves_base (pageResources : List ResourceBase)
    (cdpResponses : List (String × ℚ)) :
    (mergeCdpResponsesIntoResources pageResources cdpResponses).length = pageResources.length ∧
    ∀ (i : ℕ) (h1 : i < (mergeCdpResponsesIntoResources pageResources cdpResponses).length)
      (h2 : i < pageResources.length),
      Resource.toResourceBase
          ((mergeCdpResponsesIntoResources pageResources cdpResponses).get ⟨i, h1⟩)
        = pageResources.get ⟨i, h2⟩ := by
  constructor
  · simp [mergeCdpResponsesIntoResources]
  · intro i h1 h2
    simp only [mergeCdpResponsesIntoResources, List.get_eq_getElem, List.getElem_map]
    cases hl : cdpResponses.lookup (ResourceBase.url pageResources[i]) with
    | none => simp [hl]
    | some v => simp [hl]

/-- Witness for C10 on the two-record merge input. -/
theorem merge_preserves_base_witness :
    Resource.toResourceBase
        ((mergeCdpResponsesIntoResources mergeBases mergeMap).get ⟨0, by decide⟩)
      = mergeBases.get ⟨0, by decide⟩ ∧
    Resource.toResourceBase
        ((mergeCdpResponsesIntoResources mergeBases mergeMap).get ⟨1, by decide⟩)
      = mergeBases.get ⟨1, by decide⟩ := by
  have h := merge_preserves_base mergeBases mergeMap
  exact ⟨h.2 0 (by decide) (by decide), h.2 1 (by decide) (by decide)⟩

end WebpageImpact
